import Mathlib

/-!
Shallow embedding of `src/main.py` (Bill-Dashboard): a single-file Gmail
metadata exporter.  The program authenticates against the Gmail API, lists
messages matching a fixed query, fetches per-message header metadata, and
writes one CSV row per successfully fetched message.

Remote behaviour (the Gmail API) is injected as function parameters
(`execute` for the per-message `get` call, `listExec` for the `list` call,
refresh/flow outcomes for authentication); file I/O is modelled by explicit
file contents (a list of rows) plus an injected failure point for write
operations.  Each Lean definition mirrors one Python function.
-/

namespace BillDashboard

/-- One entry of `payload.headers`: a `(name, value)` pair. -/
structure Header where
  name : String
  value : String
deriving Repr, DecidableEq

/-- The slice of a Gmail message resource used by `process_and_save`:
`labelIds` (absent modelled as `[]`, matching `msg_data.get('labelIds', [])`)
and `payload.headers` (absent modelled as `[]`, matching
`msg_data.get('payload', {}).get('headers', [])`). -/
structure MsgData where
  labelIds : List String
  headers : List Header
deriving Repr, DecidableEq

/-- A message summary as returned by `users().messages().list`:
`message['id']` is accessed unconditionally, `message.get('threadId')`
may be absent. -/
structure Message where
  id : String
  threadId : Option String
deriving Repr, DecidableEq

/-- `get_header` from `process_and_save` (src/main.py:130-131):
`next((h['value'] for h in headers if h['name'] == name), 'N/A')` —
the value of the first header with exactly matching name, else `'N/A'`. -/
def get_header (headers : List Header) (name : String) : String :=
  match headers.find? (fun h => h.name == name) with
  | some h => h.value
  | none => "N/A"

/-- An HTTP error raised by the Google API client (`HttpError`);
only its presence matters to the control flow. -/
structure HttpError where
  reason : String
deriving Repr, DecidableEq

/-- The request built by `get_message_details` (src/main.py:98-103):
`users().messages().get(userId='me', id=msg_id, format='metadata',
metadataHeaders=['Subject','From','To','Date'])`. -/
structure GetRequest where
  userId : String
  id : String
  format : String
  metadataHeaders : List String
deriving Repr, DecidableEq

/-- The concrete request `get_message_details` builds for a message id. -/
def detailRequest (msg_id : String) : GetRequest :=
  { userId := "me", id := msg_id, format := "metadata",
    metadataHeaders := ["Subject", "From", "To", "Date"] }

/-- `get_message_details` with an initialized service (src/main.py:97-107):
executes the metadata request; on success returns the message resource,
on `HttpError` logs a warning and returns `None`. -/
def fetchOf (execute : GetRequest → Except HttpError MsgData)
    (msg_id : String) : Option MsgData :=
  match execute (detailRequest msg_id) with
  | .ok msg => some msg
  | .error _ => none

/-- `get_message_details` (src/main.py:90-107) including the
`if not self.service` guard: raises (`.error`) when the service is
uninitialized, otherwise never raises. -/
def get_message_details
    (service : Option (GetRequest → Except HttpError MsgData))
    (msg_id : String) : Except String (Option MsgData) :=
  match service with
  | none => .error "Gmail service not initialized."
  | some execute => .ok (fetchOf execute msg_id)

/-- The CSV field names / header row written first
(src/main.py:113, 118): `['id','threadId','labelIds','subject','from','to','date']`. -/
def fieldnames : List String :=
  ["id", "threadId", "labelIds", "subject", "from", "to", "date"]

/-- The dict written by `writer.writerow` (src/main.py:133-141), laid out
in `fieldnames` order as `csv.DictWriter` does; a `None` `threadId` is
written as the empty field. -/
def makeRow (message : Message) (msg_data : MsgData) : List String :=
  [message.id,
   message.threadId.getD "",
   String.intercalate "," msg_data.labelIds,
   get_header msg_data.headers "Subject",
   get_header msg_data.headers "From",
   get_header msg_data.headers "To",
   get_header msg_data.headers "Date"]

/-- The data rows the export loop writes when no write fails: one row per
message whose detail fetch succeeds, in input order (src/main.py:120-141). -/
def rowsFor (execute : GetRequest → Except HttpError MsgData)
    (messages : List Message) : List (List String) :=
  messages.filterMap (fun m => (fetchOf execute m.id).map (makeRow m))

/-- The write loop of `process_and_save` (src/main.py:120-141).
`opIdx` counts write operations performed so far (the header row was
operation 0); when the write with index `failAt` is attempted it raises
`IOError` instead.  Returns the rows actually appended to the file and
whether an `IOError` was raised inside the loop. -/
def writeLoop (execute : GetRequest → Except HttpError MsgData)
    (failAt : Option Nat) :
    List Message → Nat → List (List String) → List (List String) × Bool
  | [], _, acc => (acc, false)
  | m :: rest, opIdx, acc =>
    match fetchOf execute m.id with
    | none => writeLoop execute failAt rest opIdx acc
    | some d =>
      if failAt = some opIdx then (acc, true)
      else writeLoop execute failAt rest (opIdx + 1) (acc ++ [makeRow m d])

/-- The observable outcome of `process_and_save`:
the final content of `emails.csv` (one entry per row), the Python return
value (always `None` — modelled `Option Nat` against the spec's claimed
row count), whether an exception escapes to the caller, and whether a
file error was logged. -/
structure SaveOutcome where
  file : List (List String)
  returned : Option Nat
  raised : Bool
  errorLogged : Bool
deriving Repr, DecidableEq

/-- `process_and_save` (src/main.py:109-145) with an initialized service.
`openFails` models `open(OUTPUT_FILE, 'w')` itself raising `IOError`
(file kept as it was); otherwise the open truncates `prior`, the header
row is write operation 0, and data rows follow.  An `IOError` at any
write is caught by `except IOError` (src/main.py:144-145), logged, and
*not* re-raised; the function body has no `return`, so the Python value
is always `None`. -/
def process_and_save (execute : GetRequest → Except HttpError MsgData)
    (openFails : Bool) (failAt : Option Nat)
    (prior : List (List String)) (messages : List Message) : SaveOutcome :=
  if openFails then
    { file := prior, returned := none, raised := false, errorLogged := true }
  else if failAt = some 0 then
    { file := [], returned := none, raised := false, errorLogged := true }
  else
    let r := writeLoop execute failAt messages 1 []
    { file := fieldnames :: r.1, returned := none, raised := false,
      errorLogged := r.2 }

/-! ### `get_emails` (src/main.py:62-88) -/

/-- The request built by `get_emails`:
`users().messages().list(userId='me', maxResults=max_results, q=query)`. -/
structure ListRequest where
  userId : String
  maxResults : Nat
  q : String
deriving Repr, DecidableEq

/-- The hard-coded search query of `get_emails` (src/main.py:72-83). -/
def emailsQuery : String :=
  "(subject:(\"application for\" OR \"thank you for applying\" OR " ++
  "\"application received\" OR \"interview\" OR \"assessment\" OR " ++
  "\"offer\" OR \"regarding your application\"))" ++
  " AND " ++
  "(from:(careers OR hr OR recruitment OR gov OR talent OR hiring))" ++
  " -subject:(\"job alert\" OR \"job alerts\" OR \"recommended jobs\" OR \"linkedin news\")"

/-- The response of the list call; `results.get('messages', [])` means an
absent `messages` key yields `[]`. -/
structure ListResult where
  messages : Option (List Message)
deriving Repr, DecidableEq

/-- `get_emails` (src/main.py:62-88): raises when the service is
uninitialized; otherwise issues one list call and returns its `messages`
(defaulting to `[]`), and on `HttpError` logs the error and returns `[]`. -/
def get_emails (service : Option (ListRequest → Except HttpError ListResult))
    (max_results : Nat) : Except String (List Message) :=
  match service with
  | none => .error "Gmail service not initialized. Call authenticate() first."
  | some execute =>
    match execute { userId := "me", maxResults := max_results, q := emailsQuery } with
    | .ok results => .ok (results.messages.getD [])
    | .error _ => .ok []

/-! ### `authenticate` (src/main.py:28-60) -/

/-- The fields of a `google.oauth2.credentials.Credentials` object that
`authenticate` inspects, plus an opaque payload standing for the rest
(token, account identity, serialized JSON). -/
structure Cred where
  valid : Bool
  expired : Bool
  refresh_token : Bool
  payload : String
deriving Repr, DecidableEq

/-- The exceptions `authenticate` can let escape (it logs and re-raises
every exception, src/main.py:58-60). -/
inductive AuthErr where
  /-- `FileNotFoundError("Missing credentials.json ...")` (src/main.py:45). -/
  | configMissing
  /-- The exception raised by `self.creds.refresh(Request())`. -/
  | refreshError (msg : String)
  /-- The exception raised by `flow.run_local_server(port=0)`. -/
  | flowError (msg : String)
deriving Repr, DecidableEq

/-- Network interactions `authenticate` can perform, in order. -/
inductive NetCall where
  /-- `self.creds.refresh(Request())` — token refresh round-trip. -/
  | refresh
  /-- `flow.run_local_server(port=0)` — interactive consent flow. -/
  | flow
  /-- `build('gmail', 'v1', ...)` — service construction. -/
  | build
deriving Repr, DecidableEq

/-- The environment `authenticate` runs in: the local files and the
outcomes the external world would produce if the corresponding call
is made. -/
structure AuthEnv where
  tokenFileExists : Bool
  /-- Result of `Credentials.from_authorized_user_file` when the token
  file exists. -/
  loadedCred : Cred
  /-- Outcome of `self.creds.refresh(Request())` if attempted. -/
  refreshResult : Except String Cred
  credentialsFileExists : Bool
  /-- Outcome of `flow.run_local_server(port=0)` if run. -/
  flowResult : Except String Cred
deriving Repr

/-- The observable outcome of `authenticate`: the credential it ends with
(or the exception that escaped), whether a refresh was attempted, whether
the interactive flow ran, what was written to `token.json` (if anything),
and the network calls attempted, in order. -/
structure AuthOutcome where
  result : Except AuthErr Cred
  refreshAttempted : Bool
  flowRan : Bool
  tokenWritten : Option Cred
  networkCalls : List NetCall
deriving Repr

/-- The `else` branch of `authenticate` (src/main.py:43-49): no usable
refresh path, so check for `credentials.json`, raise `FileNotFoundError`
if absent, otherwise run the interactive flow; a newly issued credential
is then saved to `token.json` (src/main.py:52-53) and the service built. -/
def flowBranch (env : AuthEnv) : AuthOutcome :=
  if env.credentialsFileExists then
    match env.flowResult with
    | .ok c =>
      { result := .ok c, refreshAttempted := false, flowRan := true,
        tokenWritten := some c, networkCalls := [.flow, .build] }
    | .error e =>
      { result := .error (.flowError e), refreshAttempted := false,
        flowRan := true, tokenWritten := none, networkCalls := [.flow] }
  else
    { result := .error .configMissing, refreshAttempted := false,
      flowRan := false, tokenWritten := none, networkCalls := [] }

/-- `authenticate` (src/main.py:28-60).  Loads `token.json` if present;
if the credential is missing or invalid, refreshes when expired with a
refresh token (a refresh failure propagates — the surrounding
`except` logs and re-raises, src/main.py:58-60), otherwise runs the
interactive flow; persists the new credential; builds the service. -/
def authenticate (env : AuthEnv) : AuthOutcome :=
  let creds : Option Cred :=
    if env.tokenFileExists then some env.loadedCred else none
  match creds with
  | none => flowBranch env
  | some c =>
    if c.valid then
      { result := .ok c, refreshAttempted := false, flowRan := false,
        tokenWritten := none, networkCalls := [.build] }
    else if c.expired && c.refresh_token then
      match env.refreshResult with
      | .ok c2 =>
        { result := .ok c2, refreshAttempted := true, flowRan := false,
          tokenWritten := some c2, networkCalls := [.refresh, .build] }
      | .error e =>
        { result := .error (.refreshError e), refreshAttempted := true,
          flowRan := false, tokenWritten := none, networkCalls := [.refresh] }
    else flowBranch env

/-! ### `main` (src/main.py:147-161) -/

/-- The outcome of `main` relevant to the export: the final content of
`emails.csv` and whether `process_and_save` was invoked at all. -/
structure MainOutcome where
  file : List (List String)
  exportRan : Bool
deriving Repr, DecidableEq

/-- `main` (src/main.py:147-161), starting from a successfully constructed
`GmailService` (the constructor authenticates; `authOk` is whether the
second `authenticate()` call inside the `try` succeeds — on failure the
broad `except` logs and `emails.csv` is untouched).  Lists up to 10
messages; if the list is empty (`if not messages`) it returns before the
exporter runs; otherwise it calls `process_and_save`. -/
def main (authOk : Bool)
    (listExec : ListRequest → Except HttpError ListResult)
    (execute : GetRequest → Except HttpError MsgData)
    (openFails : Bool) (failAt : Option Nat)
    (prior : List (List String)) : MainOutcome :=
  if authOk then
    match get_emails (some listExec) 10 with
    | .error _ => { file := prior, exportRan := false }
    | .ok messages =>
      if messages.isEmpty then { file := prior, exportRan := false }
      else
        { file := (process_and_save execute openFails failAt prior messages).file,
          exportRan := true }
  else { file := prior, exportRan := false }

/-! ### Concrete environments and remote behaviours used as test inputs -/

/-- An environment with a stored token whose credential is expired with a
refresh token, where the refresh round-trip fails (e.g. a revoked refresh
token), even though `credentials.json` is present and the interactive
flow would succeed. -/
def envRefreshFail : AuthEnv :=
  { tokenFileExists := true,
    loadedCred := { valid := false, expired := true, refresh_token := true,
                    payload := "stored-token" },
    refreshResult := .error "invalid_grant",
    credentialsFileExists := true,
    flowResult := .ok { valid := true, expired := false, refresh_token := true,
                        payload := "fresh-token" } }

/-- An environment with neither `token.json` nor `credentials.json`; the
remote outcomes are irrelevant because no remote call can be made. -/
def envNoFiles : AuthEnv :=
  { tokenFileExists := false,
    loadedCred := { valid := false, expired := false, refresh_token := false,
                    payload := "" },
    refreshResult := .error "unreached",
    credentialsFileExists := false,
    flowResult := .error "unreached" }

/-- An environment whose stored credential is still valid. -/
def envValidCred : AuthEnv :=
  { tokenFileExists := true,
    loadedCred := { valid := true, expired := false, refresh_token := true,
                    payload := "stored-token" },
    refreshResult := .error "unreached",
    credentialsFileExists := true,
    flowResult := .error "unreached" }

/-- A remote `get` behaviour that fails for every message id. -/
def failingDetailExec : GetRequest → Except HttpError MsgData :=
  fun _ => .error { reason := "404 Not Found" }

/-- A remote `list` behaviour that fails with a transport error. -/
def failingListExec : ListRequest → Except HttpError ListResult :=
  fun _ => .error { reason := "rateLimitExceeded" }

/-- A remote `list` behaviour whose response has no `messages` key. -/
def emptyListExec : ListRequest → Except HttpError ListResult :=
  fun _ => .ok { messages := none }

/-! ### Helper lemmas about the write loop -/

/-- Unfolding `rowsFor` when the head message's fetch fails. -/
theorem rowsFor_cons_none (execute : GetRequest → Except HttpError MsgData)
    (m : Message) (rest : List Message) (hf : fetchOf execute m.id = none) :
    rowsFor execute (m :: rest) = rowsFor execute rest := by
  simp [rowsFor, List.filterMap_cons, hf]

/-- Unfolding `rowsFor` when the head message's fetch succeeds. -/
theorem rowsFor_cons_some (execute : GetRequest → Except HttpError MsgData)
    (m : Message) (rest : List Message) (d : MsgData)
    (hf : fetchOf execute m.id = some d) :
    rowsFor execute (m :: rest) = makeRow m d :: rowsFor execute rest := by
  simp [rowsFor, List.filterMap_cons, hf]

/-- With no injected write failure, the loop appends exactly `rowsFor`
to the accumulator and raises nothing. -/
theorem writeLoop_none (execute : GetRequest → Except HttpError MsgData)
    (ms : List Message) :
    ∀ (k : Nat) (acc : List (List String)),
      writeLoop execute none ms k acc = (acc ++ rowsFor execute ms, false) := by
  induction ms with
  | nil => intro k acc; simp [writeLoop, rowsFor]
  | cons m rest ih =>
    intro k acc
    cases hf : fetchOf execute m.id with
    | none => simp [writeLoop, hf, rowsFor, List.filterMap_cons, ih k acc]
    | some d =>
      simp [writeLoop, hf, rowsFor, List.filterMap_cons,
        ih (k + 1) (acc ++ [makeRow m d])]

/-- When the write with index `n` fails and that write is actually reached
(`n - k` is below the number of rows still to write), the loop stops with
only the first `n - k` remaining rows appended and reports the raised
`IOError`. -/
theorem writeLoop_fail (execute : GetRequest → Except HttpError MsgData)
    (ms : List Message) :
    ∀ (k n : Nat) (acc : List (List String)), k ≤ n →
      n - k < (rowsFor execute ms).length →
      writeLoop execute (some n) ms k acc
        = (acc ++ (rowsFor execute ms).take (n - k), true) := by
  induction ms with
  | nil => intro k n acc _ hlt; simp [rowsFor] at hlt
  | cons m rest ih =>
    intro k n acc hkn hlt
    cases hf : fetchOf execute m.id with
    | none =>
      rw [rowsFor_cons_none execute m rest hf] at hlt ⊢
      simp only [writeLoop, hf]
      exact ih k n acc hkn hlt
    | some d =>
      rw [rowsFor_cons_some execute m rest d hf] at hlt ⊢
      by_cases hk : n = k
      · subst hk
        simp [writeLoop, hf, Nat.sub_self]
      · have hk1 : k + 1 ≤ n := by omega
        simp only [List.length_cons] at hlt
        have hlt1 : n - (k + 1) < (rowsFor execute rest).length := by omega
        have hrec := ih (k + 1) n (acc ++ [makeRow m d]) hk1 hlt1
        have hnk : n - k = (n - (k + 1)) + 1 := by omega
        rw [hnk, List.take_succ_cons]
        simp [writeLoop, hf, hk, hrec]

/-- The number of rows produced equals the number of messages whose
detail fetch succeeded. -/
theorem rowsFor_length (execute : GetRequest → Except HttpError MsgData)
    (ms : List Message) :
    (rowsFor execute ms).length
      = (ms.filter (fun m => (fetchOf execute m.id).isSome)).length := by
  induction ms with
  | nil => simp [rowsFor]
  | cons m rest ih =>
    cases hf : fetchOf execute m.id with
    | none =>
      rw [rowsFor_cons_none execute m rest hf]
      simp [List.filter_cons, hf, ih]
    | some d =>
      rw [rowsFor_cons_some execute m rest d hf]
      simp [List.filter_cons, hf, ih]

/-! ### Claims -/

/-- Claim C1: for every input batch, `process_and_save` (with no write
failure) writes exactly one data row per message whose detail fetch
succeeded — the data rows are the `filterMap` of the fetch over the input
list, so a message whose fetch returned `None` contributes no row and the
rows appear in input order — and the number of data rows equals the number
of successfully fetched messages. -/
theorem c1_one_row_per_success
    (execute : GetRequest → Except HttpError MsgData)
    (prior : List (List String)) (messages : List Message) :
    (process_and_save execute false none prior messages).file
      = fieldnames
          :: messages.filterMap (fun m => (fetchOf execute m.id).map (makeRow m))
    ∧ ((process_and_save execute false none prior messages).file.length - 1)
        = (messages.filter (fun m => (fetchOf execute m.id).isSome)).length := by
  have h := writeLoop_none execute messages 1 []
  constructor
  · simp [process_and_save, h, rowsFor]
  · simp [process_and_save, h, rowsFor_length execute messages]

/-- Claim C2 counterexample: with two messages whose detail fetches both
succeed and a write failure at the second data row, `process_and_save`
neither surfaces an exception to its caller (the `IOError` is caught and
logged) nor returns a row count (the Python function returns `None`) —
contradicting the claimed contract `export -> count written, fails with
IOError`. -/
theorem c2_counterexample :
    (process_and_save
        (fun _ => .ok { labelIds := ["INBOX"],
                        headers := [{ name := "Subject", value := "Hi" }] })
        false (some 2) []
        [{ id := "1", threadId := some "t1" },
         { id := "2", threadId := some "t2" }]).raised = false
    ∧ (process_and_save
        (fun _ => .ok { labelIds := ["INBOX"],
                        headers := [{ name := "Subject", value := "Hi" }] })
        false (some 2) []
        [{ id := "1", threadId := some "t1" },
         { id := "2", threadId := some "t2" }]).returned = none := by
  constructor <;> rfl

/-- Claim C2 amended: on a write failure at the `(j+1)`-th write (a data
row that is actually reached), `process_and_save` aborts the remaining
writes, leaving the header row and the first `j` data rows in the file
(no rollback), logs a file error, and returns `None` without surfacing
the `IOError` to its caller. -/
theorem c2_write_failure_swallowed
    (execute : GetRequest → Except HttpError MsgData)
    (prior : List (List String)) (messages : List Message) (j : Nat)
    (hj : j < (rowsFor execute messages).length) :
    (process_and_save execute false (some (j + 1)) prior messages).file
      = fieldnames :: (rowsFor execute messages).take j
    ∧ (process_and_save execute false (some (j + 1)) prior messages).raised
        = false
    ∧ (process_and_save execute false (some (j + 1)) prior messages).returned
        = none
    ∧ (process_and_save execute false (some (j + 1)) prior messages).errorLogged
        = true := by
  have h1 : (1 : Nat) ≤ j + 1 := by omega
  have h2 : j + 1 - 1 < (rowsFor execute messages).length := by omega
  have h := writeLoop_fail execute messages 1 (j + 1) [] h1 h2
  simp only [Nat.add_sub_cancel] at h
  refine ⟨?_, rfl, rfl, ?_⟩
  · simp [process_and_save, h]
  · simp [process_and_save, h]

/-- Witness for C2 amended: a concrete batch of two fetchable messages
with the write of the second data row failing keeps exactly the header
row and the first data row. -/
theorem c2_write_failure_swallowed_witness :
    (process_and_save
        (fun r => .ok { labelIds := [],
                        headers := [{ name := "Subject", value := r.id }] })
        false (some 2) [["old"]]
        [{ id := "1", threadId := none },
         { id := "2", threadId := none }]).file
      = [["id", "threadId", "labelIds", "subject", "from", "to", "date"],
         ["1", "", "", "1", "N/A", "N/A", "N/A"]]
    ∧ (process_and_save
        (fun r => .ok { labelIds := [],
                        headers := [{ name := "Subject", value := r.id }] })
        false (some 2) [["old"]]
        [{ id := "1", threadId := none },
         { id := "2", threadId := none }]).raised = false := by
  have h := c2_write_failure_swallowed
    (fun r => .ok { labelIds := [],
                    headers := [{ name := "Subject", value := r.id }] })
    [["old"]]
    [{ id := "1", threadId := none }, { id := "2", threadId := none }]
    1 (by decide)
  exact ⟨by rw [h.1]; rfl, h.2.1⟩

/-- If every header of `pre` fails the exact-name test and `h` passes it,
the linear scan over `pre ++ h :: post` finds `h`. -/
theorem find?_header_first (name : String) (h : Header) (hname : h.name = name)
    (post : List Header) :
    ∀ pre : List Header, (∀ h' ∈ pre, h'.name ≠ name) →
      (pre ++ h :: post).find? (fun x => x.name == name) = some h := by
  intro pre
  induction pre with
  | nil =>
    intro _
    exact List.find?_cons_of_pos _ (by simp [hname])
  | cons p pre' ih =>
    intro hpre
    rw [List.cons_append, List.find?_cons_of_neg]
    · exact ih fun h' hh => hpre h' (List.mem_cons_of_mem p hh)
    · simpa using hpre p (List.mem_cons_self p pre')

/-- When no header passes the exact-name test, the scan yields nothing. -/
theorem get_header_no_match (name : String) (headers : List Header)
    (hn : ∀ h' ∈ headers, h'.name ≠ name) :
    get_header headers name = "N/A" := by
  have hfind : headers.find? (fun x => x.name == name) = none := by
    rw [List.find?_eq_none]
    intro x hx
    simpa using hn x hx
  simp [get_header, hfind]

/-- Claim C3: header extraction returns the value of the first header whose
name matches the requested name by case-sensitive exact string equality
(earlier non-matching headers are skipped), and a header list with no
matching name yields the sentinel `'N/A'` — `get_header` is a total
function, so extraction never raises for a missing header. -/
theorem c3_first_exact_match_or_sentinel (name : String)
    (pre post headers : List Header) (h : Header)
    (hpre : ∀ h' ∈ pre, h'.name ≠ name)
    (hname : h.name = name)
    (hnone : ∀ h' ∈ headers, h'.name ≠ name) :
    get_header (pre ++ h :: post) name = h.value
    ∧ get_header headers name = "N/A" := by
  constructor
  · have hfind := find?_header_first name h hname post pre hpre
    simp [get_header, hfind]
  · exact get_header_no_match name headers hnone

/-- Witness for C3: `"subject"` (lower-case) does not match `"Subject"`,
the first exactly matching header wins over a later one, and a list
containing only a `From` header yields `'N/A'` for `Subject`. -/
theorem c3_first_exact_match_or_sentinel_witness :
    get_header
        ([{ name := "subject", value := "lower" }]
          ++ { name := "Subject", value := "Hi" }
            :: [{ name := "Subject", value := "Again" }]) "Subject" = "Hi"
    ∧ get_header [{ name := "From", value := "a@x.com" }] "Subject" = "N/A" :=
  c3_first_exact_match_or_sentinel "Subject"
    [{ name := "subject", value := "lower" }]
    [{ name := "Subject", value := "Again" }]
    [{ name := "From", value := "a@x.com" }]
    { name := "Subject", value := "Hi" }
    (by decide) rfl (by decide)

/-- Claim C4 counterexample: with an expired credential carrying a refresh
token whose refresh fails, `authenticate` raises the refresh error — the
interactive flow never runs even though `credentials.json` is present and
the flow would have succeeded, contradicting the claimed fall-through. -/
theorem c4_counterexample :
    (authenticate envRefreshFail).flowRan = false
    ∧ (authenticate envRefreshFail).result
        = .error (.refreshError "invalid_grant") := by
  constructor <;> rfl

/-- Claim C4 amended: if the loaded credential is invalid, expired and has
a refresh token, a refresh is attempted, and on refresh failure
`authenticate` fails with that error (logged and re-raised by the
surrounding handler) — it does not fall through to interactive
re-authentication. -/
theorem c4_refresh_failure_raises (env : AuthEnv) (e : String)
    (ht : env.tokenFileExists = true)
    (hv : env.loadedCred.valid = false)
    (he : env.loadedCred.expired = true)
    (hr : env.loadedCred.refresh_token = true)
    (hf : env.refreshResult = .error e) :
    (authenticate env).refreshAttempted = true
    ∧ (authenticate env).result = .error (.refreshError e)
    ∧ (authenticate env).flowRan = false := by
  simp [authenticate, ht, hv, he, hr, hf]

/-- Witness for C4 amended: the refresh-failure environment. -/
theorem c4_refresh_failure_raises_witness :
    (authenticate envRefreshFail).refreshAttempted = true
    ∧ (authenticate envRefreshFail).result
        = .error (.refreshError "invalid_grant")
    ∧ (authenticate envRefreshFail).flowRan = false :=
  c4_refresh_failure_raises envRefreshFail "invalid_grant" rfl rfl rfl rfl rfl

/-- Claim C5: on an empty message batch (with the destination writable),
`process_and_save` produces a file holding exactly the fixed header row
`id, threadId, labelIds, subject, from, to, date` and no data rows,
whatever `prior` content the file held before (the `'w'` open truncates
it); nothing is raised and no error is logged. -/
theorem c5_empty_batch_header_only
    (execute : GetRequest → Except HttpError MsgData)
    (prior : List (List String)) :
    process_and_save execute false none prior []
      = { file := [["id", "threadId", "labelIds", "subject", "from", "to",
                    "date"]],
          returned := none, raised := false, errorLogged := false } := by
  simp [process_and_save, writeLoop, fieldnames]

/-- Claim C6: in `main`, when the list query yields an empty sequence the
run returns before the exporter is invoked, so the output file is never
opened or truncated and keeps whatever a previous run left in it. -/
theorem c6_empty_list_no_export
    (listExec : ListRequest → Except HttpError ListResult)
    (execute : GetRequest → Except HttpError MsgData)
    (openFails : Bool) (failAt : Option Nat) (prior : List (List String))
    (h : get_emails (some listExec) 10 = .ok []) :
    main true listExec execute openFails failAt prior
      = { file := prior, exportRan := false } := by
  simp [main, h]

/-- Witness for C6: a list response without a `messages` key leaves a
previous run's file intact and the exporter unused. -/
theorem c6_empty_list_no_export_witness :
    main true emptyListExec failingDetailExec false none [["leftover"]]
      = { file := [["leftover"]], exportRan := false } :=
  c6_empty_list_no_export emptyListExec failingDetailExec false none
    [["leftover"]] rfl

/-- Claim C7: when the single remote list call fails with an `HttpError`,
`get_emails` returns an empty sequence (after logging the failure) instead
of raising, so a list failure does not abort the run. -/
theorem c7_list_error_returns_empty
    (execute : ListRequest → Except HttpError ListResult)
    (max_results : Nat) (e : HttpError)
    (h : execute { userId := "me", maxResults := max_results,
                   q := emailsQuery } = .error e) :
    get_emails (some execute) max_results = .ok [] := by
  simp [get_emails, h]

/-- Witness for C7: a rate-limited list call yields the empty list. -/
theorem c7_list_error_returns_empty_witness :
    get_emails (some failingListExec) 100 = .ok [] :=
  c7_list_error_returns_empty failingListExec 100
    { reason := "rateLimitExceeded" } rfl

/-- Claim C8: the per-message request always carries the metadata
projection and exactly the header allow-list `Subject, From, To, Date`;
a failing `get` makes `get_message_details` return `None`; and in the
export loop a batch containing one failing message yields exactly the rows
of the other messages — the one message is skipped and the rest of the
batch completes. -/
theorem c8_metadata_projection_and_skip
    (execute : GetRequest → Except HttpError MsgData)
    (msg_id : String) (e : HttpError) (bad : Message)
    (pre post : List Message) (prior : List (List String))
    (hfail : execute (detailRequest bad.id) = .error e) :
    (detailRequest msg_id).format = "metadata"
    ∧ (detailRequest msg_id).metadataHeaders = ["Subject", "From", "To", "Date"]
    ∧ fetchOf execute bad.id = none
    ∧ (process_and_save execute false none prior (pre ++ bad :: post)).file
        = fieldnames :: (rowsFor execute pre ++ rowsFor execute post) := by
  have hnone : fetchOf execute bad.id = none := by simp [fetchOf, hfail]
  refine ⟨rfl, rfl, hnone, ?_⟩
  have h := writeLoop_none execute (pre ++ bad :: post) 1 []
  have hsplit : rowsFor execute (pre ++ bad :: post)
      = rowsFor execute pre ++ rowsFor execute post := by
    simp [rowsFor, List.filterMap_append, List.filterMap_cons, hnone]
  simp [process_and_save, h, hsplit]

/-- Witness for C8: a batch consisting of a single message whose fetch
fails produces a file with the header row only. -/
theorem c8_metadata_projection_and_skip_witness :
    (detailRequest "m7").format = "metadata"
    ∧ (detailRequest "m7").metadataHeaders = ["Subject", "From", "To", "Date"]
    ∧ fetchOf failingDetailExec (Message.id { id := "bad0", threadId := none })
        = none
    ∧ (process_and_save failingDetailExec false none []
          ([] ++ { id := "bad0", threadId := none } :: [])).file
        = fieldnames
            :: (rowsFor failingDetailExec [] ++ rowsFor failingDetailExec []) :=
  c8_metadata_projection_and_skip failingDetailExec "m7"
    { reason := "404 Not Found" } { id := "bad0", threadId := none }
    [] [] [] rfl

/-- Claim C9: with no stored token file and no `credentials.json`,
`authenticate` fails with the `FileNotFoundError` (the ConfigMissing
error) having attempted no network call at all — no refresh, no
interactive flow, no service build — and without writing any token. -/
theorem c9_config_missing_before_network (env : AuthEnv)
    (ht : env.tokenFileExists = false)
    (hc : env.credentialsFileExists = false) :
    (authenticate env).result = .error .configMissing
    ∧ (authenticate env).networkCalls = []
    ∧ (authenticate env).tokenWritten = none := by
  simp [authenticate, flowBranch, ht, hc]

/-- Witness for C9: the file-less environment. -/
theorem c9_config_missing_before_network_witness :
    (authenticate envNoFiles).result = .error .configMissing
    ∧ (authenticate envNoFiles).networkCalls = []
    ∧ (authenticate envNoFiles).tokenWritten = none :=
  c9_config_missing_before_network envNoFiles rfl rfl

/-- Claim C10: with a stored credential that is still valid,
`authenticate` keeps exactly that credential, writes nothing to the token
store, attempts no refresh and runs no interactive flow; since the
persisted state is untouched, repeated calls behave identically apart
from the validity check. -/
theorem c10_valid_cred_no_side_effects (env : AuthEnv)
    (ht : env.tokenFileExists = true)
    (hv : env.loadedCred.valid = true) :
    (authenticate env).result = .ok env.loadedCred
    ∧ (authenticate env).tokenWritten = none
    ∧ (authenticate env).refreshAttempted = false
    ∧ (authenticate env).flowRan = false := by
  simp [authenticate, ht, hv]

/-- Witness for C10: the valid-credential environment. -/
theorem c10_valid_cred_no_side_effects_witness :
    (authenticate envValidCred).result = .ok envValidCred.loadedCred
    ∧ (authenticate envValidCred).tokenWritten = none
    ∧ (authenticate envValidCred).refreshAttempted = false
    ∧ (authenticate envValidCred).flowRan = false :=
  c10_valid_cred_no_side_effects envValidCred rfl rfl

end BillDashboard
